import Mathlib

/-!
Verification development for the eatmi.pl storefront backend
(`server.js`): the PayU order-creation flow, the webhook status
reconciler, and the file-backed order store.

The JavaScript source is shallowly embedded as follows:
* JS numbers carrying money amounts (`total`, item `price`) are modelled
  as exact rationals `ℚ`; `Math.round` becomes `jsRound q = ⌊q + 1/2⌋`
  (round half toward +∞), which agrees with IEEE-754 `Math.round` on all
  inputs whose scaled value is exactly representable.
* JS `undefined`-able fields become `Option`; JS `x || d` (first truthy)
  on strings/naturals becomes `jsOrString` / `jsOrNat`, with `""`/`0`
  falsy, matching JavaScript truthiness on those types.
* The `orders.json` file is a `FileState`: absent, unparsable bytes, or a
  parsed list of order records; `readOrders`/`saveOrders` mirror the
  `try ... JSON.parse(readFileSync) ... catch ... return []` /
  `writeFileSync` pair in the source.
* The two Express handlers become pure state-transition functions:
  `placeOrder` (POST /api/payu/order) takes the two gateway network
  results (`Except` models axios/fetch throwing on non-2xx or transport
  error) and returns the HTTP outcome, the new file state, and the list
  of network calls attempted; `handleNotify` (POST /api/payu/notify)
  takes the parsed webhook body and returns the HTTP status code and the
  new file state.
* The MD5 digest from the node `crypto` module (an external library, not
  code of this repository) is an abstract function parameter `md5hex`;
  `JSON.stringify` on the one object this code serializes is embedded as
  the concrete `stringifyOrderBody` (insertion-ordered keys, as
  `JSON.stringify` guarantees; string escaping is not modelled).
* Clock readings (`Date.now()`, `new Date().toISOString()`) are a
  `now : ℕ` parameter; each handler reads the clock during one request.
-/

namespace Eatmi

/-- `Math.round` of JavaScript on an exact rational: round half toward +∞. -/
def jsRound (q : ℚ) : ℤ := ⌊q + 1/2⌋

/-- JS `a || d` for an optional string `a` (absent and `""` are falsy). -/
def jsOrString : Option String → String → String
  | none, d => d
  | some s, d => if s = "" then d else s

/-- JS `a || d` for an optional natural `a` (absent and `0` are falsy),
used for `i.qty || 1`. -/
def jsOrNat : Option ℕ → ℕ → ℕ
  | none, d => d
  | some n, d => if n = 0 then d else n

/-- The `customer` object of the creation request body. -/
structure Customer where
  email : Option String
  telefon : Option String
  imieNazwisko : Option String
deriving DecidableEq

/-- One entry of the `cart` array of the creation request body. -/
structure CartItem where
  name : String
  price : ℚ
  qty : Option ℕ
deriving DecidableEq

/-- The PayU configuration constants read at module top level
(`PAYU_POS_ID`, `PAYU_MD5`, `NOTIFY_URL`, `CONTINUE_URL`). -/
structure Config where
  posId : String
  md5Key : String
  notifyUrl : String
  continueUrl : String
deriving DecidableEq

/-- The hard-coded fallback configuration of `server.js`. -/
def defaultConfig : Config :=
  { posId := "4415769"
    md5Key := "580033922fa44e698f99ccb91b225d3b"
    notifyUrl := "https://twojadomena.pl/api/payu/notify"
    continueUrl := "https://twojadomena.pl/#/success" }

/-- The `buyer` object of the gateway payload. -/
structure Buyer where
  email : String
  phone : String
  firstName : String
  lastName : String
  language : String
deriving DecidableEq

/-- One entry of the `products` array of the gateway payload. -/
structure ProductLine where
  name : String
  unitPrice : String
  quantity : String
deriving DecidableEq

/-- The order-creation payload `orderBody` sent to the gateway, fields in
the insertion order of the source object literal. -/
structure OrderBody where
  notifyUrl : String
  continueUrl : String
  customerIp : String
  merchantPosId : String
  description : String
  currencyCode : String
  totalAmount : String
  buyer : Buyer
  products : List ProductLine
  externalOrderId : String
deriving DecidableEq

/-- `"EATMI-" + Date.now()`: the locally generated order identifier. -/
def mkLocalOrderId (now : ℕ) : String := "EATMI-" ++ Nat.repr now

/-- The `buyer` construction inside the creation handler, with the JS
`||` fallbacks on every field. -/
def mkBuyer (customer : Option Customer) : Buyer :=
  let fullName := jsOrString (customer.bind (·.imieNazwisko)) ""
  let parts := fullName.splitOn " "
  { email := jsOrString (customer.bind (·.email)) "klient@eatmi.pl"
    phone := jsOrString (customer.bind (·.telefon)) ""
    firstName := jsOrString (some (parts.headD "")) "Klient"
    lastName := jsOrString (some (String.intercalate " " (parts.drop 1))) "Eatmi"
    language := "pl" }

/-- The `products` construction: per line item, `String(Math.round(price*100))`
minor units and `String(qty || 1)`. -/
def mkProducts (cart : List CartItem) : List ProductLine :=
  cart.map fun i =>
    { name := i.name
      unitPrice := (jsRound (i.price * 100)).repr
      quantity := (jsOrNat i.qty 1).repr }

/-- The full `orderBody` object literal of the creation handler. -/
def mkOrderBody (cfg : Config) (localOrderId : String) (customerIp : String)
    (customer : Option Customer) (cart : List CartItem) (total : ℚ) : OrderBody :=
  { notifyUrl := cfg.notifyUrl
    continueUrl := cfg.continueUrl
    customerIp := customerIp
    merchantPosId := cfg.posId
    description := "Zamówienie eatmi.pl #" ++ localOrderId
    currencyCode := "PLN"
    totalAmount := (jsRound (total * 100)).repr
    buyer := mkBuyer customer
    products := mkProducts cart
    externalOrderId := localOrderId }

/-- A JSON string literal (escaping not modelled: the fields serialized
here never need it in the scenarios considered). -/
def jstr (s : String) : String := "\"" ++ s ++ "\""

/-- `JSON.stringify` of a `buyer` object, keys in insertion order. -/
def stringifyBuyer (b : Buyer) : String :=
  "\x7b" ++ jstr "email" ++ ":" ++ jstr b.email ++ ","
    ++ jstr "phone" ++ ":" ++ jstr b.phone ++ ","
    ++ jstr "firstName" ++ ":" ++ jstr b.firstName ++ ","
    ++ jstr "lastName" ++ ":" ++ jstr b.lastName ++ ","
    ++ jstr "language" ++ ":" ++ jstr b.language ++ "\x7d"

/-- `JSON.stringify` of one `products` entry, keys in insertion order. -/
def stringifyProduct (p : ProductLine) : String :=
  "\x7b" ++ jstr "name" ++ ":" ++ jstr p.name ++ ","
    ++ jstr "unitPrice" ++ ":" ++ jstr p.unitPrice ++ ","
    ++ jstr "quantity" ++ ":" ++ jstr p.quantity ++ "\x7d"

/-- `JSON.stringify(orderBody)`, keys in insertion order: the exact byte
string both signed by `makeSignature` and transmitted as the request body. -/
def stringifyOrderBody (b : OrderBody) : String :=
  "\x7b" ++ jstr "notifyUrl" ++ ":" ++ jstr b.notifyUrl ++ ","
    ++ jstr "continueUrl" ++ ":" ++ jstr b.continueUrl ++ ","
    ++ jstr "customerIp" ++ ":" ++ jstr b.customerIp ++ ","
    ++ jstr "merchantPosId" ++ ":" ++ jstr b.merchantPosId ++ ","
    ++ jstr "description" ++ ":" ++ jstr b.description ++ ","
    ++ jstr "currencyCode" ++ ":" ++ jstr b.currencyCode ++ ","
    ++ jstr "totalAmount" ++ ":" ++ jstr b.totalAmount ++ ","
    ++ jstr "buyer" ++ ":" ++ stringifyBuyer b.buyer ++ ","
    ++ jstr "products" ++ ":["
    ++ String.intercalate "," (b.products.map stringifyProduct) ++ "],"
    ++ jstr "externalOrderId" ++ ":" ++ jstr b.externalOrderId ++ "\x7d"

/-- `makeSignature(body)`: MD5 over `JSON.stringify(body) + PAYU_MD5`,
hex-encoded by the abstract digest `md5hex`, wrapped in the OpenPayu
header format. -/
def makeSignature (md5hex : String → String) (cfg : Config) (body : OrderBody) : String :=
  let payload := stringifyOrderBody body
  let hash := md5hex (payload ++ cfg.md5Key)
  "sender=" ++ cfg.posId ++ ";signature=" ++ hash
    ++ ";algorithm=MD5;content=APPLICATION_JSON"

/-- One record of `orders.json`. `updatedAt`/`paidAt` are optional because
the creation handler writes neither; the notify handler writes `updatedAt`
(and assigns `status` whatever, possibly absent, value the notification
carried). -/
structure Order where
  localOrderId : String
  payuOrderId : Option String
  status : Option String
  total : ℚ
  cart : List CartItem
  customer : Option Customer
  createdAt : Option ℕ
  updatedAt : Option ℕ
  paidAt : Option ℕ
deriving DecidableEq

/-- The state of the `orders.json` backing file. -/
inductive FileState where
  | absent
  | corrupt (raw : String)
  | good (orders : List Order)
deriving DecidableEq

/-- `readOrders`: `JSON.parse(readFileSync(...))`, with any failure
(missing file, unparsable contents) swallowed into `[]`. -/
def readOrders : FileState → List Order
  | .good orders => orders
  | _ => []

/-- `saveOrders`: `writeFileSync(ORDERS_FILE, JSON.stringify(orders))`. -/
def saveOrders (orders : List Order) : FileState := .good orders

/-- The creation request body together with the header/socket fields the
handler reads for `customerIp`. -/
structure CreateReq where
  customer : Option Customer
  cart : List CartItem
  total : Option ℚ
  xForwardedFor : Option String
  remoteAddress : Option String
deriving DecidableEq

/-- The parsed JSON body of a 2xx gateway order-creation response; either
field may be absent (`createRes.data?.redirectUri`, `...?.orderId`). -/
structure CreateResp where
  redirectUri : Option String
  orderId : Option String
deriving DecidableEq

/-- A network call attempted by the creation handler, in order. The
create call records the transmitted body bytes and the signature header. -/
inductive NetCall where
  | tokenCall
  | createCall (transmittedBody : String) (signature : String)
deriving DecidableEq

/-- The HTTP outcome of the creation handler: 400, 500, or the 200 JSON
body carrying `redirectUri`, `localOrderId` and `payuOrderId`. -/
inductive CreateResult where
  | badRequest
  | serverError
  | ok (redirectUri : Option String) (localOrderId : String) (payuOrderId : Option String)
deriving DecidableEq

/-- Everything observable about one run of the creation handler. -/
structure CreateOutcome where
  resp : CreateResult
  file : FileState
  calls : List NetCall
deriving DecidableEq

/-- `req.headers["x-forwarded-for"] || req.socket.remoteAddress || "127.0.0.1"`. -/
def customerIpOf (req : CreateReq) : String :=
  jsOrString req.xForwardedFor (jsOrString req.remoteAddress "127.0.0.1")

/-- The record pushed onto the store by the creation handler. -/
def newOrderRecord (now : ℕ) (req : CreateReq) (t : ℚ) (payuOrderId : Option String) :
    Order :=
  { localOrderId := mkLocalOrderId now
    payuOrderId := payuOrderId
    status := some "PENDING"
    total := t
    cart := req.cart
    customer := req.customer
    createdAt := some now
    updatedAt := none
    paidAt := none }

/-- The POST `/api/payu/order` handler. `tokenRes` and `createRes` are the
results of the two outbound gateway calls (`.error` models a thrown
non-2xx/transport failure, which the `catch` turns into a 500); the guard
`!cart?.length || !total` is the JS truthiness test on the two fields. -/
def placeOrder (md5hex : String → String) (cfg : Config) (now : ℕ) (req : CreateReq)
    (tokenRes : Except String String) (createRes : Except String CreateResp)
    (file : FileState) : CreateOutcome :=
  match req.total with
  | none => ⟨.badRequest, file, []⟩
  | some t =>
    if req.cart = [] ∨ t = 0 then ⟨.badRequest, file, []⟩
    else
      match tokenRes with
      | .error _ => ⟨.serverError, file, [.tokenCall]⟩
      | .ok _ =>
        let localOrderId := mkLocalOrderId now
        let body := mkOrderBody cfg localOrderId (customerIpOf req) req.customer req.cart t
        let sig := makeSignature md5hex cfg body
        let transmitted := stringifyOrderBody body
        match createRes with
        | .error _ => ⟨.serverError, file, [.tokenCall, .createCall transmitted sig]⟩
        | .ok cd =>
          let orders := readOrders file
          ⟨.ok cd.redirectUri localOrderId cd.orderId,
            saveOrders (orders ++ [newOrderRecord now req t cd.orderId]),
            [.tokenCall, .createCall transmitted sig]⟩

/-- One entry of the webhook body `orders` array; both fields may be
absent in the inbound JSON. -/
structure NotifyOrder where
  orderId : Option String
  status : Option String
deriving DecidableEq

/-- `o.payuOrderId === payuOrderId` — strict equality, under which two
absent values are equal, as in JavaScript `undefined === undefined`. -/
def notifyMatches (nid : Option String) (o : Order) : Bool := o.payuOrderId == nid

/-- The in-place mutation `orders[idx].status = status;
orders[idx].updatedAt = new Date().toISOString()`. -/
def applyStatus (now : ℕ) (nord : NotifyOrder) (o : Order) : Order :=
  { o with status := nord.status, updatedAt := some now }

/-- Replace the first element satisfying `p` by its image under `f`
(`findIndex` + in-place element assignment). -/
def updateFirst (p : Order → Bool) (f : Order → Order) : List Order → List Order
  | [] => []
  | o :: os => if p o then f o :: os else o :: updateFirst p f os

/-- The POST `/api/payu/notify` handler: `data?.orders?.[0]` is
`notifyOrders.bind List.head?`; the result is the HTTP status (always 200)
and the new file state (written only when `findIndex` succeeded). -/
def handleNotify (now : ℕ) (notifyOrders : Option (List NotifyOrder))
    (file : FileState) : ℕ × FileState :=
  match notifyOrders.bind List.head? with
  | none => (200, file)
  | some nord =>
    let orders := readOrders file
    if orders.any (notifyMatches nord.orderId) then
      (200, saveOrders (updateFirst (notifyMatches nord.orderId) (applyStatus now nord) orders))
    else (200, file)

/-- The GET `/api/orders` view. -/
def listOrders (file : FileState) : List Order := readOrders file

/-- Decimal digits of `n`, most significant first: a fuel-free counterpart
of the core function `Nat.toDigitsCore` at base 10, used to reason about
`Nat.repr`. -/
def decDigits (n : ℕ) : List Char :=
  if h : n / 10 = 0 then [Nat.digitChar (n % 10)]
  else
    have hn : 0 < n := by
      rcases Nat.eq_zero_or_pos n with h0 | h0
      · exact absurd (by simp [h0]) h
      · exact h0
    have : n / 10 < n := Nat.div_lt_self hn (by norm_num)
    decDigits (n / 10) ++ [Nat.digitChar (n % 10)]
termination_by n

/-- Concrete fixture: a stored order awaiting payment, as the creation
handler writes it. -/
def storedPending : Order :=
  { localOrderId := "EATMI-0", payuOrderId := some "G1", status := some "PENDING"
    total := 32, cart := [], customer := none, createdAt := some 0
    updatedAt := none, paidAt := none }

/-- Concrete fixture: one cart line. -/
def sampleItem : CartItem := { name := "Box 1", price := 32, qty := some 1 }

/-- Concrete fixture: a well-formed creation request. -/
def sampleReq : CreateReq :=
  { customer := none, cart := [sampleItem], total := some 32,
    xForwardedFor := none, remoteAddress := none }

/-! ### Helper lemmas on decimal rendering and first-match update -/

/-- One-step unfolding of `decDigits`. -/
theorem decDigits_eq (n : ℕ) :
    decDigits n = (if n / 10 = 0 then [] else decDigits (n / 10))
      ++ [Nat.digitChar (n % 10)] := by
  rw [decDigits.eq_def]
  by_cases h : n / 10 = 0 <;> simp [h]

/-- A decimal rendering always has at least one digit. -/
theorem decDigits_ne_nil (n : ℕ) : decDigits n ≠ [] := by
  rw [decDigits_eq]; simp

/-- `Nat.digitChar` is injective on single digits. -/
theorem digitChar_injOn :
    ∀ a : ℕ, a < 10 → ∀ b : ℕ, b < 10 → Nat.digitChar a = Nat.digitChar b → a = b := by
  decide

/-- Two naturals with the same decimal digits are equal. -/
theorem decDigits_injective : ∀ m n : ℕ, decDigits m = decDigits n → m = n := by
  intro m
  induction m using Nat.strong_induction_on with
  | _ m ih =>
    intro n h
    rw [decDigits_eq m, decDigits_eq n] at h
    obtain ⟨hpre, hdig⟩ := List.append_inj' h rfl
    have hmod : m % 10 = n % 10 := by
      have hc : Nat.digitChar (m % 10) = Nat.digitChar (n % 10) := by
        simpa using hdig
      exact digitChar_injOn _ (Nat.mod_lt _ (by norm_num)) _ (Nat.mod_lt _ (by norm_num)) hc
    by_cases hm : m / 10 = 0 <;> by_cases hn : n / 10 = 0
    · omega
    · rw [if_pos hm, if_neg hn] at hpre
      exact absurd hpre.symm (decDigits_ne_nil _)
    · rw [if_neg hm, if_pos hn] at hpre
      exact absurd hpre (decDigits_ne_nil _)
    · rw [if_neg hm, if_neg hn] at hpre
      have hdiv : m / 10 = n / 10 :=
        ih (m / 10) (Nat.div_lt_self (by omega) (by norm_num)) (n / 10) hpre
      omega

/-- The fuelled core digit loop computes `decDigits` when given enough fuel. -/
theorem toDigitsCore_eq_decDigits :
    ∀ (fuel n : ℕ) (acc : List Char), n < fuel →
      Nat.toDigitsCore 10 fuel n acc = decDigits n ++ acc := by
  intro fuel
  induction fuel with
  | zero => intro n acc h; omega
  | succ fuel ih =>
    intro n acc h
    simp only [Nat.toDigitsCore]
    by_cases h0 : n / 10 = 0
    · rw [if_pos h0, decDigits_eq, if_pos h0]
      simp
    · rw [if_neg h0, ih (n / 10) _ (by omega), decDigits_eq n, if_neg h0]
      simp

/-- `Nat.repr` renders exactly the digits of `decDigits`. -/
theorem repr_eq_decDigits (n : ℕ) : Nat.repr n = (decDigits n).asString := by
  have h : Nat.toDigits 10 n = decDigits n := by
    have h2 := toDigitsCore_eq_decDigits (n + 1) n [] (Nat.lt_succ_self n)
    simpa [Nat.toDigits] using h2
  simp [Nat.repr, h]

/-- Decimal rendering of naturals is injective. -/
theorem natRepr_injective : ∀ m n : ℕ, Nat.repr m = Nat.repr n → m = n := by
  intro m n h
  rw [repr_eq_decDigits, repr_eq_decDigits] at h
  apply decDigits_injective
  have hd := congrArg String.data h
  simpa [List.asString] using hd

/-- Distinct timestamps produce distinct local order identifiers. -/
theorem mkLocalOrderId_injective :
    ∀ t₁ t₂ : ℕ, mkLocalOrderId t₁ = mkLocalOrderId t₂ → t₁ = t₂ := by
  intro t₁ t₂ h
  apply natRepr_injective
  have hd := congrArg String.data h
  simp only [mkLocalOrderId, String.data_append] at hd
  exact String.ext (List.append_cancel_left hd)

/-- When some element of `l` satisfies `p`, `updateFirst p f l` rewrites
exactly the first such element and nothing else. -/
theorem updateFirst_decomp (p : Order → Bool) (f : Order → Order) :
    ∀ l : List Order, l.any p = true →
      ∃ pre x post, l = pre ++ x :: post ∧ (∀ y ∈ pre, p y = false) ∧ p x = true ∧
        updateFirst p f l = pre ++ f x :: post := by
  intro l
  induction l with
  | nil => simp
  | cons o os ih =>
    intro h
    cases hp : p o with
    | true => exact ⟨[], o, os, rfl, by simp, hp, by simp [updateFirst, hp]⟩
    | false =>
      have hos : os.any p = true := by simpa [hp] using h
      obtain ⟨pre, x, post, hl, hpre, hx, hu⟩ := ih hos
      refine ⟨o :: pre, x, post, by simp [hl], ?_, hx, by simp [updateFirst, hp, hu]⟩
      intro y hy
      rcases List.mem_cons.mp hy with rfl | hy2
      · exact hp
      · exact hpre y hy2

/-! ### C1 — terminal statuses and the webhook handler -/

/-- C1 counterexample: a stored order already in the terminal status
COMPLETED receives a subsequent CANCELED notification for its gateway
order id; the handler overwrites it, so COMPLETED followed by CANCELED
ends in CANCELED, not COMPLETED as the claim states. -/
theorem completed_then_canceled_yields_canceled :
    (readOrders (handleNotify 2 (some [⟨some "G1", some "CANCELED"⟩])
        (handleNotify 1 (some [⟨some "G1", some "COMPLETED"⟩])
          (.good [storedPending])).2).2).map (·.status) = [some "CANCELED"] ∧
    some "CANCELED" ≠ some "COMPLETED" := by
  constructor <;> decide

/-- C1 (amended): the webhook handler has no forward-only guard: for the
first stored order whose `payuOrderId` matches the notification, the
incoming status is applied unconditionally, whatever the current status
(terminal or not); hence COMPLETED then CANCELED yields CANCELED. -/
theorem notify_overwrites_any_status (now : ℕ) (nord : NotifyOrder) (o : Order)
    (os : List Order) (h : notifyMatches nord.orderId o = true) :
    (handleNotify now (some [nord]) (.good (o :: os))).2 =
      .good ({ o with status := nord.status, updatedAt := some now } :: os) := by
  simp [handleNotify, readOrders, List.any_cons, h, updateFirst, saveOrders, applyStatus]

/-- Witness for `notify_overwrites_any_status`: a COMPLETED order is
overwritten to CANCELED at a concrete store. -/
theorem notify_overwrites_any_status_witness :
    (handleNotify 2 (some [⟨some "G1", some "CANCELED"⟩])
        (.good [{ storedPending with status := some "COMPLETED" }])).2 =
      .good [{ storedPending with status := some "CANCELED", updatedAt := some 2 }] :=
  notify_overwrites_any_status 2 ⟨some "G1", some "CANCELED"⟩
    { storedPending with status := some "COMPLETED" } [] (by decide)

/-! ### C2 — gateway failure leaves the store untouched -/

/-- C2: if either gateway call fails (thrown non-2xx or transport error,
modelled as an `Except.error` result) on a request that passed validation,
the handler answers 500 and the order store file is unchanged: no record
is created. -/
theorem gateway_failure_leaves_store_unchanged (md5hex : String → String) (cfg : Config)
    (now : ℕ) (req : CreateReq) (t : ℚ) (tokenRes : Except String String)
    (createRes : Except String CreateResp) (file : FileState)
    (ht : req.total = some t) (ht0 : t ≠ 0) (hc : req.cart ≠ [])
    (hfail : (∃ e, tokenRes = .error e) ∨ ∃ e, createRes = .error e) :
    (placeOrder md5hex cfg now req tokenRes createRes file).resp = .serverError ∧
    (placeOrder md5hex cfg now req tokenRes createRes file).file = file := by
  have hguard : ¬ (req.cart = [] ∨ t = 0) := by
    rintro (h | h)
    · exact hc h
    · exact ht0 h
  cases tokenRes with
  | error e => simp [placeOrder, ht, hguard]
  | ok tok =>
    cases createRes with
    | error e => simp [placeOrder, ht, hguard]
    | ok cd =>
      rcases hfail with ⟨e, he⟩ | ⟨e, he⟩ <;> exact absurd he (by simp)

/-- Witness for `gateway_failure_leaves_store_unchanged`: a failed token
call on a valid request leaves a one-record store exactly as it was. -/
theorem gateway_failure_witness :
    (placeOrder (fun s => s) defaultConfig 1000 sampleReq (.error "token down")
      (.ok ⟨some "r", some "G"⟩) (.good [storedPending])).resp = .serverError ∧
    (placeOrder (fun s => s) defaultConfig 1000 sampleReq (.error "token down")
      (.ok ⟨some "r", some "G"⟩) (.good [storedPending])).file = .good [storedPending] :=
  gateway_failure_leaves_store_unchanged (fun s => s) defaultConfig 1000 sampleReq 32
    (.error "token down") (.ok ⟨some "r", some "G"⟩) (.good [storedPending])
    rfl (by decide) (by decide) (Or.inl ⟨"token down", rfl⟩)

/-! ### C3 — request validation -/

/-- C3 counterexample: a creation request with a non-empty cart and the
strictly negative total `-1` is not rejected with 400 — the JS guard
`!total` only catches a missing or zero total — and a gateway call is
attempted, contradicting the claim for a total that is not strictly
positive. -/
theorem negative_total_passes_validation :
    (placeOrder (fun s => s) defaultConfig 1000
        ⟨none, [sampleItem], some (-1), none, none⟩
        (.error "down") (.error "down") .absent).resp ≠ .badRequest ∧
    (placeOrder (fun s => s) defaultConfig 1000
        ⟨none, [sampleItem], some (-1), none, none⟩
        (.error "down") (.error "down") .absent).calls ≠ [] := by
  constructor <;> decide

/-- C3 (amended): when the cart is empty or the total is absent or zero
(the JS-falsy cases), the handler answers 400, attempts no network call,
and leaves the store file unchanged; a negative total is not caught. -/
theorem falsy_guard_rejects_without_network (md5hex : String → String) (cfg : Config)
    (now : ℕ) (req : CreateReq) (tokenRes : Except String String)
    (createRes : Except String CreateResp) (file : FileState)
    (h : req.cart = [] ∨ req.total = none ∨ req.total = some 0) :
    (placeOrder md5hex cfg now req tokenRes createRes file).resp = .badRequest ∧
    (placeOrder md5hex cfg now req tokenRes createRes file).file = file ∧
    (placeOrder md5hex cfg now req tokenRes createRes file).calls = [] := by
  cases htot : req.total with
  | none => simp [placeOrder, htot]
  | some t =>
    have hguard : req.cart = [] ∨ t = 0 := by
      rcases h with h | h | h
      · exact Or.inl h
      · rw [htot] at h; exact absurd h (by simp)
      · rw [htot] at h; exact Or.inr (Option.some.inj h)
    simp [placeOrder, htot, hguard]

/-- Witness for `falsy_guard_rejects_without_network`: an empty cart is
rejected with 400, no calls, store unchanged. -/
theorem falsy_guard_witness :
    (placeOrder (fun s => s) defaultConfig 1000
        ⟨none, [], some 32, none, none⟩ (.ok "tok") (.ok ⟨some "r", some "G"⟩) .absent).resp
      = .badRequest ∧
    (placeOrder (fun s => s) defaultConfig 1000
        ⟨none, [], some 32, none, none⟩ (.ok "tok") (.ok ⟨some "r", some "G"⟩) .absent).file
      = .absent ∧
    (placeOrder (fun s => s) defaultConfig 1000
        ⟨none, [], some 32, none, none⟩ (.ok "tok") (.ok ⟨some "r", some "G"⟩) .absent).calls
      = [] :=
  falsy_guard_rejects_without_network (fun s => s) defaultConfig 1000
    ⟨none, [], some 32, none, none⟩ (.ok "tok") (.ok ⟨some "r", some "G"⟩) .absent
    (Or.inl rfl)

/-! ### C4 — successful creation appends one PENDING record -/

/-- C4 counterexample: a 2xx gateway response carrying neither
`redirectUri` nor `orderId` is not treated as a malformed-response error:
the handler still appends a record (with an absent `payuOrderId`) and
returns 200 with both fields absent, contradicting the claim that such a
response is rejected rather than stored, and that the stored
`gatewayOrderId` is non-empty. -/
theorem malformed_response_stored_anyway :
    (placeOrder (fun s => s) defaultConfig 1000 sampleReq
        (.ok "tok") (.ok ⟨none, none⟩) (.good [])).resp = .ok none "EATMI-1000" none ∧
    (readOrders (placeOrder (fun s => s) defaultConfig 1000 sampleReq
        (.ok "tok") (.ok ⟨none, none⟩) (.good [])).file).map
      (fun o => (o.localOrderId, o.payuOrderId, o.status)) =
      [("EATMI-1000", none, some "PENDING")] := by
  constructor <;> decide

/-- C4 (amended): a valid creation request with a 2xx gateway response
appends exactly one record — status PENDING, `payuOrderId` equal to the
possibly-absent `orderId` field of the response — and answers 200 echoing
the possibly-absent `redirectUri`; a response missing either field is
stored and echoed with the field absent, not treated as an error. -/
theorem success_appends_single_pending_record (md5hex : String → String) (cfg : Config)
    (now : ℕ) (req : CreateReq) (t : ℚ) (tok : String) (cd : CreateResp) (file : FileState)
    (ht : req.total = some t) (ht0 : t ≠ 0) (hc : req.cart ≠ []) :
    (placeOrder md5hex cfg now req (.ok tok) (.ok cd) file).file =
      saveOrders (readOrders file ++ [newOrderRecord now req t cd.orderId]) ∧
    (newOrderRecord now req t cd.orderId).status = some "PENDING" ∧
    (newOrderRecord now req t cd.orderId).payuOrderId = cd.orderId ∧
    (placeOrder md5hex cfg now req (.ok tok) (.ok cd) file).resp =
      .ok cd.redirectUri (mkLocalOrderId now) cd.orderId := by
  have hguard : ¬ (req.cart = [] ∨ t = 0) := by
    rintro (h | h)
    · exact hc h
    · exact ht0 h
  refine ⟨?_, rfl, rfl, ?_⟩
  · simp [placeOrder, ht, hguard, saveOrders]
  · simp [placeOrder, ht, hguard]

/-- Witness for `success_appends_single_pending_record` at a concrete
request, store and gateway response. -/
theorem success_appends_witness :
    (placeOrder (fun s => s) defaultConfig 1000 sampleReq (.ok "tok")
        (.ok ⟨some "r", some "G1"⟩) (.good [storedPending])).file =
      saveOrders (readOrders (.good [storedPending])
        ++ [newOrderRecord 1000 sampleReq 32 (some "G1")]) ∧
    (newOrderRecord 1000 sampleReq 32 (some "G1")).status = some "PENDING" ∧
    (newOrderRecord 1000 sampleReq 32 (some "G1")).payuOrderId = some "G1" ∧
    (placeOrder (fun s => s) defaultConfig 1000 sampleReq (.ok "tok")
        (.ok ⟨some "r", some "G1"⟩) (.good [storedPending])).resp =
      .ok (some "r") (mkLocalOrderId 1000) (some "G1") :=
  success_appends_single_pending_record (fun s => s) defaultConfig 1000 sampleReq 32 "tok"
    ⟨some "r", some "G1"⟩ (.good [storedPending]) rfl (by decide) (by decide)

/-! ### C5 — what an accepted webhook transition persists -/

/-- C5 counterexample: a stored PENDING order receives a COMPLETED
notification; the handler persists the new status and a fresh `updatedAt`
but `paidAt` stays absent — the source never writes a `paidAt` field —
contradicting the claim that `paidAt` is additionally set. -/
theorem completed_notification_leaves_paidAt_unset :
    (readOrders (handleNotify 5 (some [⟨some "G1", some "COMPLETED"⟩])
        (.good [storedPending])).2).map (fun o => (o.status, o.updatedAt, o.paidAt)) =
      [(some "COMPLETED", some 5, none)] := by
  decide

/-- C5 (amended): for every accepted webhook transition the handler
persists the notified status and a fresh `updatedAt` on the first
matching record; `paidAt` is never written — it keeps its previous value,
hence stays absent on records the creation handler wrote. -/
theorem accepted_notification_sets_status_updatedAt_not_paidAt (now : ℕ)
    (nords : Option (List NotifyOrder)) (file : FileState) (nord : NotifyOrder)
    (hn : nords.bind List.head? = some nord)
    (hm : (readOrders file).any (notifyMatches nord.orderId) = true) :
    ∃ pre x post, readOrders file = pre ++ x :: post ∧
      (handleNotify now nords file).2 = .good (pre ++ applyStatus now nord x :: post) ∧
      (applyStatus now nord x).status = nord.status ∧
      (applyStatus now nord x).updatedAt = some now ∧
      (applyStatus now nord x).paidAt = x.paidAt := by
  obtain ⟨pre, x, post, hl, hpre, hx, hu⟩ :=
    updateFirst_decomp (notifyMatches nord.orderId) (applyStatus now nord)
      (readOrders file) hm
  exact ⟨pre, x, post, hl, by simp [handleNotify, hn, hm, saveOrders, hu], rfl, rfl, rfl⟩

/-- Witness for `accepted_notification_sets_status_updatedAt_not_paidAt`
on a concrete PENDING order completed by a webhook. -/
theorem accepted_notification_witness :
    ∃ pre x post, readOrders (.good [storedPending]) = pre ++ x :: post ∧
      (handleNotify 5 (some [⟨some "G1", some "COMPLETED"⟩]) (.good [storedPending])).2 =
        .good (pre ++ applyStatus 5 ⟨some "G1", some "COMPLETED"⟩ x :: post) ∧
      (applyStatus 5 ⟨some "G1", some "COMPLETED"⟩ x).status = some "COMPLETED" ∧
      (applyStatus 5 ⟨some "G1", some "COMPLETED"⟩ x).updatedAt = some 5 ∧
      (applyStatus 5 ⟨some "G1", some "COMPLETED"⟩ x).paidAt = x.paidAt :=
  accepted_notification_sets_status_updatedAt_not_paidAt 5
    (some [⟨some "G1", some "COMPLETED"⟩]) (.good [storedPending])
    ⟨some "G1", some "COMPLETED"⟩ rfl (by decide)

/-! ### C6 — minor-units conversion -/

/-- C6: the gateway amount is `Math.round(total * 100)` rendered as a
decimal string: `32.50` gives `3250`, `19.99` gives `1999`, a cart total
of `32` gives the payload field `totalAmount = "3200"`, and the same
conversion is applied per line item to unit prices. `jsRound` rounds to a
nearest integer (within one half), and at the `x.xx5` boundary the code
rounds half up — the standard-rounding reading of the rule stated by the
specification — as `12.125 → 1213` shows. -/
theorem minor_units_conversion (cfg : Config) (lid ip : String) (cust : Option Customer)
    (cart : List CartItem) (t : ℚ) :
    jsRound ((65/2 : ℚ) * 100) = 3250 ∧
    jsRound ((1999/100 : ℚ) * 100) = 1999 ∧
    (mkOrderBody cfg lid ip cust cart 32).totalAmount = "3200" ∧
    (mkOrderBody cfg lid ip cust cart t).totalAmount = (jsRound (t * 100)).repr ∧
    ((mkOrderBody cfg lid ip cust cart t).products.map (·.unitPrice) =
      cart.map fun i => (jsRound (i.price * 100)).repr) ∧
    jsRound ((97/8 : ℚ) * 100) = 1213 ∧
    ∀ q : ℚ, |(jsRound q : ℚ) - q| ≤ 1/2 := by
  refine ⟨by norm_num [jsRound], by norm_num [jsRound], ?_, rfl, ?_,
    by norm_num [jsRound], ?_⟩
  · have h32 : jsRound ((32:ℚ) * 100) = 3200 := by norm_num [jsRound]
    simp [mkOrderBody, h32]
    decide
  · simp [mkOrderBody, mkProducts]
  · intro q
    simp only [jsRound]
    have h1 := Int.floor_le (q + 1/2)
    have h2 := Int.lt_floor_add_one (q + 1/2)
    rw [abs_le]
    constructor <;> linarith

/-! ### C7 — signature format and signed bytes -/

/-- C7: for every payload and configuration (posId and secret), the
signature header is
`sender=<posId>;signature=<md5hex(stringify(body) ++ secret)>;algorithm=MD5;content=APPLICATION_JSON`,
and the byte string hashed inside `makeSignature` is exactly the byte
string the handler transmits as the order-creation request body (the
`createCall` entry of the call log records the transmitted bytes). -/
theorem signature_format_and_signed_bytes (md5hex : String → String) (cfg : Config)
    (now : ℕ) (req : CreateReq) (t : ℚ) (tok : String)
    (createRes : Except String CreateResp) (file : FileState)
    (ht : req.total = some t) (ht0 : t ≠ 0) (hc : req.cart ≠ []) :
    (placeOrder md5hex cfg now req (.ok tok) createRes file).calls =
      [.tokenCall,
       .createCall
         (stringifyOrderBody
           (mkOrderBody cfg (mkLocalOrderId now) (customerIpOf req) req.customer req.cart t))
         (makeSignature md5hex cfg
           (mkOrderBody cfg (mkLocalOrderId now) (customerIpOf req) req.customer req.cart t))] ∧
    makeSignature md5hex cfg
        (mkOrderBody cfg (mkLocalOrderId now) (customerIpOf req) req.customer req.cart t) =
      "sender=" ++ cfg.posId ++ ";signature="
        ++ md5hex (stringifyOrderBody
             (mkOrderBody cfg (mkLocalOrderId now) (customerIpOf req) req.customer req.cart t)
             ++ cfg.md5Key)
        ++ ";algorithm=MD5;content=APPLICATION_JSON" := by
  have hguard : ¬ (req.cart = [] ∨ t = 0) := fun h => h.elim hc ht0
  constructor
  · cases createRes with
    | error e => simp [placeOrder, ht, hguard]
    | ok cd => simp [placeOrder, ht, hguard]
  · rfl

/-- Witness for `signature_format_and_signed_bytes` at a concrete request
(the identity function stands in for the abstract digest). -/
theorem signature_format_witness :
    (placeOrder (fun s => s) defaultConfig 1000 sampleReq (.ok "tok")
        (.error "down") .absent).calls =
      [.tokenCall,
       .createCall
         (stringifyOrderBody
           (mkOrderBody defaultConfig (mkLocalOrderId 1000) (customerIpOf sampleReq)
             sampleReq.customer sampleReq.cart 32))
         (makeSignature (fun s => s) defaultConfig
           (mkOrderBody defaultConfig (mkLocalOrderId 1000) (customerIpOf sampleReq)
             sampleReq.customer sampleReq.cart 32))] ∧
    makeSignature (fun s => s) defaultConfig
        (mkOrderBody defaultConfig (mkLocalOrderId 1000) (customerIpOf sampleReq)
          sampleReq.customer sampleReq.cart 32) =
      "sender=" ++ defaultConfig.posId ++ ";signature="
        ++ (fun s => s) (stringifyOrderBody
             (mkOrderBody defaultConfig (mkLocalOrderId 1000) (customerIpOf sampleReq)
               sampleReq.customer sampleReq.cart 32)
             ++ defaultConfig.md5Key)
        ++ ";algorithm=MD5;content=APPLICATION_JSON" :=
  signature_format_and_signed_bytes (fun s => s) defaultConfig 1000 sampleReq 32 "tok"
    (.error "down") .absent rfl (by decide) (by decide)

/-! ### C8 — local order identifiers -/

/-- C8 counterexample: two distinct creation requests handled in the same
millisecond (`Date.now() = 1000` for both) both succeed, and the store
then contains two records with the same `localOrderId`, contradicting the
claim that any two creation requests receive distinct identifiers. -/
theorem same_millisecond_requests_collide :
    (readOrders (placeOrder (fun s => s) defaultConfig 1000
        { customer := none, cart := [⟨"Frytki", 8, some 2⟩], total := some 16,
          xForwardedFor := none, remoteAddress := none }
        (.ok "tok") (.ok ⟨some "r2", some "G2"⟩)
        (placeOrder (fun s => s) defaultConfig 1000 sampleReq (.ok "tok")
          (.ok ⟨some "r1", some "G1"⟩) (.good [])).file).file).map (·.localOrderId) =
      ["EATMI-1000", "EATMI-1000"] ∧
    ({ customer := none, cart := [⟨"Frytki", 8, some 2⟩], total := some 16,
       xForwardedFor := none, remoteAddress := none } : CreateReq) ≠ sampleReq := by
  constructor <;> decide

/-- C8 (amended): every generated `localOrderId` carries the storefront
brand as a leading marker (`"EATMI-" ++ digits`), and requests handled at
distinct clock milliseconds receive distinct identifiers; requests in the
same millisecond share one identifier, so the store can hold duplicates. -/
theorem localOrderId_prefixed_and_timestamp_injective :
    (∀ t : ℕ, ∃ s, mkLocalOrderId t = "EATMI-" ++ s) ∧
    (∀ t₁ t₂ : ℕ, t₁ ≠ t₂ → mkLocalOrderId t₁ ≠ mkLocalOrderId t₂) := by
  constructor
  · intro t
    exact ⟨Nat.repr t, rfl⟩
  · intro t₁ t₂ hne h
    exact hne (mkLocalOrderId_injective t₁ t₂ h)

/-- Witness for `localOrderId_prefixed_and_timestamp_injective` at
concrete timestamps. -/
theorem localOrderId_prefixed_witness :
    (∃ s, mkLocalOrderId 1700000000000 = "EATMI-" ++ s) ∧
    mkLocalOrderId 1 ≠ mkLocalOrderId 2 :=
  ⟨localOrderId_prefixed_and_timestamp_injective.1 1700000000000,
   localOrderId_prefixed_and_timestamp_injective.2 1 2 (by decide)⟩

/-! ### C9 — webhook frame conditions -/

/-- C9: the notify endpoint always answers 200; with no order entry in
the payload, or no record whose `payuOrderId` matches, the store file is
unchanged; otherwise exactly the first matching record is replaced by its
`applyStatus` image — which changes only `status` and `updatedAt` and
preserves `localOrderId`, `payuOrderId`, `total`, `cart`, `customer`,
`createdAt` and `paidAt` — while every other record is untouched. -/
theorem notify_frame_conditions (now : ℕ) (nords : Option (List NotifyOrder))
    (file : FileState) :
    (handleNotify now nords file).1 = 200 ∧
    (nords.bind List.head? = none → (handleNotify now nords file).2 = file) ∧
    (∀ nord, nords.bind List.head? = some nord →
      ((readOrders file).any (notifyMatches nord.orderId) = false →
        (handleNotify now nords file).2 = file) ∧
      ((readOrders file).any (notifyMatches nord.orderId) = true →
        ∃ pre x post, readOrders file = pre ++ x :: post ∧
          (∀ y ∈ pre, notifyMatches nord.orderId y = false) ∧
          notifyMatches nord.orderId x = true ∧
          (handleNotify now nords file).2 = .good (pre ++ applyStatus now nord x :: post) ∧
          (applyStatus now nord x).localOrderId = x.localOrderId ∧
          (applyStatus now nord x).payuOrderId = x.payuOrderId ∧
          (applyStatus now nord x).total = x.total ∧
          (applyStatus now nord x).cart = x.cart ∧
          (applyStatus now nord x).customer = x.customer ∧
          (applyStatus now nord x).createdAt = x.createdAt ∧
          (applyStatus now nord x).paidAt = x.paidAt)) := by
  refine ⟨?_, ?_, ?_⟩
  · cases hcase : nords.bind List.head? with
    | none => simp [handleNotify, hcase]
    | some nord =>
      by_cases hany : (readOrders file).any (notifyMatches nord.orderId) = true
      · simp [handleNotify, hcase, hany]
      · simp [handleNotify, hcase, hany]
  · intro h
    simp [handleNotify, h]
  · intro nord h
    constructor
    · intro hany
      simp [handleNotify, h, hany]
    · intro hany
      obtain ⟨pre, x, post, hl, hpre, hx, hu⟩ :=
        updateFirst_decomp (notifyMatches nord.orderId) (applyStatus now nord)
          (readOrders file) hany
      exact ⟨pre, x, post, hl, hpre, hx,
        by simp [handleNotify, h, hany, saveOrders, hu], rfl, rfl, rfl, rfl, rfl, rfl, rfl⟩

/-- Witness for `notify_frame_conditions`: 200 response and the
single-record rewrite at a concrete store with one matching order. -/
theorem notify_frame_conditions_witness :
    (handleNotify 7 (some [⟨some "G1", some "COMPLETED"⟩]) (.good [storedPending])).1 = 200 ∧
    (∃ pre x post, readOrders (.good [storedPending]) = pre ++ x :: post ∧
      (∀ y ∈ pre, notifyMatches (some "G1") y = false) ∧
      notifyMatches (some "G1") x = true ∧
      (handleNotify 7 (some [⟨some "G1", some "COMPLETED"⟩]) (.good [storedPending])).2 =
        .good (pre ++ applyStatus 7 ⟨some "G1", some "COMPLETED"⟩ x :: post) ∧
      (applyStatus 7 ⟨some "G1", some "COMPLETED"⟩ x).localOrderId = x.localOrderId ∧
      (applyStatus 7 ⟨some "G1", some "COMPLETED"⟩ x).payuOrderId = x.payuOrderId ∧
      (applyStatus 7 ⟨some "G1", some "COMPLETED"⟩ x).total = x.total ∧
      (applyStatus 7 ⟨some "G1", some "COMPLETED"⟩ x).cart = x.cart ∧
      (applyStatus 7 ⟨some "G1", some "COMPLETED"⟩ x).customer = x.customer ∧
      (applyStatus 7 ⟨some "G1", some "COMPLETED"⟩ x).createdAt = x.createdAt ∧
      (applyStatus 7 ⟨some "G1", some "COMPLETED"⟩ x).paidAt = x.paidAt) :=
  ⟨(notify_frame_conditions 7 (some [⟨some "G1", some "COMPLETED"⟩]) (.good [storedPending])).1,
   ((notify_frame_conditions 7 (some [⟨some "G1", some "COMPLETED"⟩])
        (.good [storedPending])).2.2 ⟨some "G1", some "COMPLETED"⟩ rfl).2 (by decide)⟩

/-! ### C10 — unreadable store file -/

/-- C10: reading an absent or unparsable `orders.json` yields the empty
list (the parse failure is swallowed), and the next successful creation
rewrites the file from that empty list: the resulting file holds exactly
the one new record, so records present in the unreadable bytes are not
carried forward. -/
theorem unreadable_store_reads_empty_and_is_rewritten (raw : String)
    (md5hex : String → String) (cfg : Config) (now : ℕ) (req : CreateReq) (t : ℚ)
    (tok : String) (cd : CreateResp)
    (ht : req.total = some t) (ht0 : t ≠ 0) (hc : req.cart ≠ []) :
    readOrders .absent = [] ∧
    readOrders (.corrupt raw) = [] ∧
    (placeOrder md5hex cfg now req (.ok tok) (.ok cd) (.corrupt raw)).file =
      .good [newOrderRecord now req t cd.orderId] ∧
    (placeOrder md5hex cfg now req (.ok tok) (.ok cd) .absent).file =
      .good [newOrderRecord now req t cd.orderId] := by
  have hguard : ¬ (req.cart = [] ∨ t = 0) := fun h => h.elim hc ht0
  exact ⟨rfl, rfl, by simp [placeOrder, ht, hguard, saveOrders, readOrders],
    by simp [placeOrder, ht, hguard, saveOrders, readOrders]⟩

/-- Witness for `unreadable_store_reads_empty_and_is_rewritten` on
concrete unparsable file contents. -/
theorem unreadable_store_witness :
    readOrders .absent = [] ∧
    readOrders (.corrupt "NOT JSON \x7b]") = [] ∧
    (placeOrder (fun s => s) defaultConfig 1000 sampleReq (.ok "tok")
        (.ok ⟨some "r", some "G1"⟩) (.corrupt "NOT JSON \x7b]")).file =
      .good [newOrderRecord 1000 sampleReq 32 (some "G1")] ∧
    (placeOrder (fun s => s) defaultConfig 1000 sampleReq (.ok "tok")
        (.ok ⟨some "r", some "G1"⟩) .absent).file =
      .good [newOrderRecord 1000 sampleReq 32 (some "G1")] :=
  unreadable_store_reads_empty_and_is_rewritten "NOT JSON \x7b]" (fun s => s) defaultConfig
    1000 sampleReq 32 "tok" ⟨some "r", some "G1"⟩ rfl (by decide) (by decide)

end Eatmi
